import Mathlib

/-!
Shallow embedding of the async video job lifecycle of kubanmedia/neoclip3p.

Two implementations are embedded, following the two files the specification's
claims cite:

* `AsyncVideoService` — the client-side service
  `src/services/asyncVideoService.ts` (`createVideoJob`, `getVideoJobStatus`,
  `completeVideoGeneration`).  Job state lives in `localStorage`, modelled as
  a function from keys to optional job records.  All network interactions
  (the FAL submit call, the FAL status check, the Pollinations HEAD
  reachability probes) are modelled as explicit oracle inputs, and a thrown
  exception or a non-ok HTTP response is one oracle outcome.  Timestamps are
  milliseconds as `Nat` (`Date.now()` / `new Date(x).getTime()`).
  `getVideoJobStatus` additionally returns the total number of milliseconds
  it spends in internal `setTimeout` sleeps, so that blocking behaviour is
  observable in the model.

* `VideoApi` — the serverless handlers of `api/video.ts`
  (`createVideoJob`/`getVideoJobStatus`/`completeVideoJob` acting on the
  in-memory `jobStore` Map), modelled as state-passing functions from the
  store to an HTTP-style response plus the updated store.

JavaScript truthiness on optional strings (`a || b`) is modelled by `jsOr` /
`jsTruthy`: `undefined` is `none` and the empty string is falsy.
-/

/-- JavaScript `a || b` for an optional string `a`: `b` when `a` is absent or
empty, else `a`. -/
def jsOr (a : Option String) (b : String) : String :=
  match a with
  | some s => if s = "" then b else s
  | none => b

/-- JavaScript truthiness of an optional string. -/
def jsTruthy (a : Option String) : Bool :=
  match a with
  | some s => s ≠ ""
  | none => false

/-- JavaScript `String.prototype.startsWith`, computed on character lists
(structural recursion, so the kernel can evaluate it). -/
def jsStartsWith (s pre : String) : Bool :=
  pre.data.isPrefixOf s.data

/-- One step of JavaScript `String.prototype.replace` with a plain-string
pattern: replace the first occurrence only. -/
def replaceFirstChars (pat rep : List Char) : List Char → List Char
  | [] => []
  | c :: rest =>
    if pat.isPrefixOf (c :: rest) then rep ++ (c :: rest).drop pat.length
    else c :: replaceFirstChars pat rep rest

/-- JavaScript `s.replace(pat, rep)` for plain strings: first occurrence
only. -/
def jsReplaceOnce (s pat rep : String) : String :=
  String.mk (replaceFirstChars pat.data rep.data s.data)

/-- Characters `encodeURIComponent` leaves unescaped:
letters, digits, and `- _ . ! ~ * ' ( )`. -/
def uriUnescaped (c : Char) : Bool :=
  c.isAlphanum || c = '-' || c = '_' || c = '.' || c = '!' || c = '~' ||
    c = '*' || c = Char.ofNat 39 || c = '(' || c = ')'

/-- Upper-case hexadecimal digit, as `encodeURIComponent` produces. -/
def hexDigitChar (n : Nat) : Char :=
  if n < 10 then Char.ofNat (48 + n) else Char.ofNat (55 + n % 16)

/-- UTF-8 bytes of one character, as numbers. -/
def utf8Bytes (c : Char) : List Nat :=
  let n := c.toNat
  if n < 128 then [n]
  else if n < 2048 then [192 + n / 64, 128 + n % 64]
  else if n < 65536 then [224 + n / 4096, 128 + (n / 64) % 64, 128 + n % 64]
  else [240 + n / 262144, 128 + (n / 4096) % 64, 128 + (n / 64) % 64, 128 + n % 64]

/-- Percent escape (`%HH`) of one byte. -/
def percentByte (b : Nat) : String :=
  String.mk ['%', hexDigitChar (b / 16), hexDigitChar (b % 16)]

/-- JavaScript `encodeURIComponent`: unescaped characters pass through, every
other character is percent-encoded byte by byte. -/
def encodeURIComponent (s : String) : String :=
  s.data.foldl (fun acc c =>
    if uriUnescaped c then acc ++ c.toString
    else acc ++ String.join ((utf8Bytes c).map percentByte)) ""

/-- Type `UserTier` from `src/types.ts`. -/
inductive UserTier
  | free
  | basic
  | pro
deriving DecidableEq, BEq

/-- Field `PRICING[tier].maxLength` from `src/types.ts` — the tier-to-maximum
duration configuration (free 10, basic 15, pro 30). -/
def PRICING_maxLength : UserTier → Nat
  | .free => 10
  | .basic => 15
  | .pro => 30

/-- Type `VideoConfig` from `src/types.ts` (the optional `image` field is unused by
the async service and omitted). -/
structure VideoConfig where
  prompt : String
  aspectRatio : String
  duration : Nat
deriving DecidableEq

namespace AsyncVideoService

/-- The environment variables consulted by `getApiKey` in
`asyncVideoService.ts`; `none` is an unset variable. -/
structure ApiEnv where
  falKey : Option String := none
  piapiKey : Option String := none
  googleKey : Option String := none

/-- Function `getApiKey` from `asyncVideoService.ts`: the environment value when set
(and truthy), else the `demo_` default that triggers fallback behaviour;
unknown providers yield the empty string. -/
def getApiKey (env : ApiEnv) (provider : String) : String :=
  if provider = "fal" then jsOr env.falKey "demo_fal_key"
  else if provider = "piapi" then jsOr env.piapiKey "demo_piapi_key"
  else if provider = "google" then jsOr env.googleKey "demo_google_key"
  else ""

/-- The guard `!apiKey || apiKey.startsWith('demo_')` of `createVideoJob`:
the credential is missing or one of the demo placeholders.  The status
check's gate `apiKey && !apiKey.startsWith('demo_')` is its negation. -/
def demoOrMissing (k : String) : Bool :=
  k = "" || jsStartsWith k "demo_"

/-- The job record the service writes to `localStorage` under key
`video_job_<jobId>`.  `createdAt` is in milliseconds; `falJobId` is empty for
image-sequence jobs, which do not carry the field. -/
structure ClientJob where
  id : String
  prompt : String
  aspectRatio : String
  duration : Nat
  provider : String
  status : String
  createdAt : Nat
  isImageSequence : Bool
  falJobId : String := ""
deriving DecidableEq

/-- The branch test `job.isImageSequence || job.provider === 'image'` of
`getVideoJobStatus`: the job is handled by the synthetic image-sequence
path. -/
def syntheticRouted (job : ClientJob) : Bool :=
  job.isImageSequence || job.provider = "image"

/-- The `localStorage` map, restricted to the `video_job_*` keys the service uses. -/
def ClientStore := String → Option ClientJob

/-- Operation `localStorage.setItem`. -/
def storePut (store : ClientStore) (k : String) (v : ClientJob) : ClientStore :=
  fun q => if q = k then some v else store q

/-- Operation `localStorage.removeItem`. -/
def storeErase (store : ClientStore) (k : String) : ClientStore :=
  fun q => if q = k then none else store q

/-- The empty `localStorage`. -/
def emptyStore : ClientStore := fun _ => none

/-- Outcome of the FAL job-creation `fetch` in `createVideoJob`: either the
call throws (a network failure, or the explicit `throw` on a non-ok
response), or it yields a JSON body with optional `request_id` and `job_id`
fields. -/
inductive FalSubmit
  | err (msg : String)
  | ok (requestId : Option String) (jobIdField : Option String)

/-- Outcome of the FAL status-check `fetch` in `getVideoJobStatus`: either it
throws (network failure or the `throw` on a non-ok response), or it yields a
JSON body with `status`, `video_url`, `thumbnail_url`, `error` fields. -/
inductive FalCheck
  | err
  | ok (status : String) (videoUrl : Option String)
      (thumbnailUrl : Option String) (error : Option String)

/-- Result record of `createVideoJob`. -/
structure CreateResult where
  jobId : String
  status : String
  error : Option String := none
  isImageSequence : Option Bool := none
deriving DecidableEq

/-- Status snapshot returned by `getVideoJobStatus`. -/
structure StatusSnapshot where
  status : String
  videoUrl : Option String := none
  thumbnail : Option String := none
  error : Option String := none
  isImageSequence : Option Bool := none
deriving DecidableEq

/-- Result record of `completeVideoGeneration` (`GenerationResponse` in
`src/types.ts`, restricted to the fields this function sets). -/
structure GenerationResponse where
  success : Bool
  videoUrl : Option String := none
  thumbnail : Option String := none
  error : Option String := none
  tier : Option UserTier := none
  hasAdCard : Option Bool := none
  jobId : Option String := none
deriving DecidableEq

/-- Function `createVideoJob` from `asyncVideoService.ts`.  `now` is `Date.now()`,
`rand` the random id suffix, `submit` the outcome of the FAL creation call
(consulted only on the real-key path).  Returns the function's result and the
updated `localStorage`. -/
def createVideoJob (env : ApiEnv) (config : VideoConfig) (tier : UserTier)
    (now : Nat) (rand : String) (submit : FalSubmit) (store : ClientStore) :
    CreateResult × ClientStore :=
  if tier = .free then
    let jobId := "img_" ++ toString now ++ "_" ++ rand
    let jobData : ClientJob :=
      { id := jobId, prompt := config.prompt, aspectRatio := config.aspectRatio,
        duration := min config.duration 16, provider := "image",
        status := "queued", createdAt := now, isImageSequence := true }
    ({ jobId := jobId, status := "queued", isImageSequence := some true },
      storePut store ("video_job_" ++ jobId) jobData)
  else
    let apiKey := getApiKey env "fal"
    if demoOrMissing apiKey then
      let jobId := "img_" ++ toString now ++ "_" ++ rand
      let jobData : ClientJob :=
        { id := jobId, prompt := config.prompt, aspectRatio := config.aspectRatio,
          duration := min config.duration 16, provider := "image",
          status := "queued", createdAt := now, isImageSequence := true }
      ({ jobId := jobId, status := "queued", isImageSequence := some true },
        storePut store ("video_job_" ++ jobId) jobData)
    else
      let jobId := "job_" ++ toString now ++ "_" ++ rand
      match submit with
      | .err msg =>
        ({ jobId := "", status := "failed",
           error := some (if msg = "" then "Failed to create video job" else msg) },
          store)
      | .ok requestId jobIdField =>
        let jobData : ClientJob :=
          { id := jobId, prompt := config.prompt,
            aspectRatio := config.aspectRatio,
            duration := min config.duration (if tier = .pro then 30 else 15),
            provider := "fal", status := "queued", createdAt := now,
            isImageSequence := false,
            falJobId := jsOr requestId (jsOr jobIdField jobId) }
        ({ jobId := jobId, status := "queued" },
          storePut store ("video_job_" ++ jobId) jobData)

/-- Pollinations image width for an aspect ratio. -/
def imgWidth (aspectRatio : String) : Nat :=
  if aspectRatio = "9:16" then 576 else 1024

/-- Pollinations image height for an aspect ratio. -/
def imgHeight (aspectRatio : String) : Nat :=
  if aspectRatio = "9:16" then 1024 else 576

/-- The expression `Math.min(job.duration || 10, 16)` — a zero (falsy) duration defaults to
10, then the Pollinations ceiling of 16 is applied. -/
def pollinationsDuration (d : Nat) : Nat :=
  min (if d = 0 then 10 else d) 16

/-- The Pollinations video URL `getVideoJobStatus` builds for an
image-sequence job once the processing threshold has elapsed. -/
def imageVideoUrl (job : ClientJob) : String :=
  "https://image.pollinations.ai/prompt/" ++ encodeURIComponent job.prompt ++
    "?width=" ++ toString (imgWidth job.aspectRatio) ++
    "&height=" ++ toString (imgHeight job.aspectRatio) ++
    "&duration=" ++ toString (pollinationsDuration job.duration) ++
    "&format=mp4&nologo=true"

/-- The Pollinations image URL used as fallback when the video never becomes
reachable within the probe loop. -/
def imageFallbackUrl (job : ClientJob) : String :=
  "https://image.pollinations.ai/prompt/" ++ encodeURIComponent job.prompt ++
    "?width=" ++ toString (imgWidth job.aspectRatio) ++
    "&height=" ++ toString (imgHeight job.aspectRatio) ++
    "&nologo=true"

/-- Index of the first successful HEAD probe among the 40 attempts of the
reachability loop (`reach i` is whether attempt `i` gets an ok response;
an attempt that throws counts as not ok, exactly as in the source's inner
try/catch). -/
def headProbeHit (reach : Nat → Bool) : Option Nat :=
  (List.range 40).find? reach

/-- Function `getVideoJobStatus` from `asyncVideoService.ts`.  Returns the snapshot
together with the total milliseconds spent in internal
`setTimeout(resolve, 5000)` sleeps (the probe loop sleeps 5000 ms after every
unsuccessful attempt). -/
def getVideoJobStatus (env : ApiEnv) (store : ClientStore) (jobId : String)
    (now : Nat) (reach : Nat → Bool) (falCheck : FalCheck) :
    StatusSnapshot × Nat :=
  match store ("video_job_" ++ jobId) with
  | none => ({ status := "failed", error := some "Job not found" }, 0)
  | some job =>
    if syntheticRouted job then
      -- elapsed < 5000: with Nat truncation a clock running behind createdAt
      -- still lands in this branch, as the negative JS difference would.
      if now - job.createdAt < 5000 then
        ({ status := "processing" }, 0)
      else
        let videoUrl := imageVideoUrl job
        match headProbeHit reach with
        | some i =>
          ({ status := "completed", videoUrl := some videoUrl,
             thumbnail := some (jsReplaceOnce videoUrl ".mp4" ".jpg"),
             isImageSequence := some true }, 5000 * i)
        | none =>
          let imageUrl := imageFallbackUrl job
          ({ status := "completed", videoUrl := some imageUrl,
             thumbnail := some imageUrl, isImageSequence := some true,
             error := some "Video generation timed out, using image instead" },
            5000 * 40)
    else
      let apiKey := getApiKey env job.provider
      if job.provider = "fal" then
        let real : Option StatusSnapshot :=
          if !demoOrMissing apiKey then
            match falCheck with
            | .err => none
            | .ok st vurl thumb errMsg =>
              if st = "completed" && jsTruthy vurl then
                some { status := "completed", videoUrl := vurl,
                       thumbnail := some (jsOr thumb (vurl.getD "")) }
              else if st = "failed" then
                some { status := "failed",
                       error := some (jsOr errMsg "Video generation failed") }
              else
                some { status := if st = "" then "processing" else st }
          else none
        match real with
        | some snap => (snap, 0)
        | none =>
          if now - job.createdAt < 30000 then
            ({ status := "processing" }, 0)
          else
            ({ status := "completed",
               videoUrl := some "https://sample-videos.com/zip/10/mp4/SampleVideo_1280x720_1mb.mp4",
               thumbnail := some ("https://picsum.photos/320/180?random=" ++ jobId) },
              0)
      else
        ({ status := "failed", error := some "Unknown provider" }, 0)

/-- The snapshot part of `getVideoJobStatus`. -/
def pollSnap (env : ApiEnv) (store : ClientStore) (jobId : String)
    (now : Nat) (reach : Nat → Bool) (falCheck : FalCheck) : StatusSnapshot :=
  (getVideoJobStatus env store jobId now reach falCheck).1

/-- The milliseconds `getVideoJobStatus` spends sleeping. -/
def pollSleepMs (env : ApiEnv) (store : ClientStore) (jobId : String)
    (now : Nat) (reach : Nat → Bool) (falCheck : FalCheck) : Nat :=
  (getVideoJobStatus env store jobId now reach falCheck).2

/-- Function `completeVideoGeneration` from `asyncVideoService.ts`: polls the job and,
when (and only when) the snapshot is `completed`, returns it as a success and
removes the record. -/
def completeVideoGeneration (env : ApiEnv) (store : ClientStore)
    (jobId : String) (tier : UserTier) (now : Nat) (reach : Nat → Bool)
    (falCheck : FalCheck) : GenerationResponse × ClientStore :=
  let statusResult := pollSnap env store jobId now reach falCheck
  if statusResult.status ≠ "completed" then
    ({ success := false,
       error := some ("Job not completed. Status: " ++ statusResult.status) },
      store)
  else
    ({ success := true, videoUrl := statusResult.videoUrl,
       thumbnail := statusResult.thumbnail, tier := some tier,
       hasAdCard := some (tier == .free), jobId := some jobId },
      storeErase store ("video_job_" ++ jobId))

end AsyncVideoService

namespace VideoApi

/-- A job record in the server's in-memory `jobStore` Map (`api/video.ts`).
The status handler only ever updates `status` and `error` on the stored
object; `videoUrl`/`thumbnail` are placed in the HTTP response, never on the
record, so they stay as created (`none` for handler-created jobs). -/
structure ServerJob where
  id : String
  prompt : String
  aspectRatio : String
  duration : Nat
  tier : String
  provider : String
  status : String
  createdAt : Nat
  externalJobId : Option String := none
  videoUrl : Option String := none
  thumbnail : Option String := none
  error : Option String := none
deriving DecidableEq

/-- The `jobStore` Map. -/
def ServerStore := String → Option ServerJob

/-- Operation `jobStore.set`. -/
def serverPut (store : ServerStore) (k : String) (v : ServerJob) : ServerStore :=
  fun q => if q = k then some v else store q

/-- Operation `jobStore.delete`. -/
def serverErase (store : ServerStore) (k : String) : ServerStore :=
  fun q => if q = k then none else store q

/-- The empty `jobStore`. -/
def emptyServerStore : ServerStore := fun _ => none

/-- Outcome of the PiAPI status `fetch` in the server status handler: the
call throws (caught by the handler's try/catch, which answers 500), or the
response is not ok (the handler then falls through and reports the stored
status), or it yields a JSON body. -/
inductive PiapiCheck
  | fetchErr (msg : String)
  | notOk
  | ok (status : String) (videoUrl : Option String)
      (thumbnailUrl : Option String) (error : Option String)

/-- The JSON an `api/video.ts` handler sends, together with the HTTP status
code; only the fields some branch sets are modelled. -/
structure ApiResponse where
  code : Nat
  status : Option String := none
  jobId : Option String := none
  videoUrl : Option String := none
  thumbnail : Option String := none
  error : Option String := none
  message : Option String := none
  success : Option Bool := none
  prompt : Option String := none
  aspectRatio : Option String := none
  duration : Option Nat := none
  tier : Option String := none
  provider : Option String := none
deriving DecidableEq

/-- Function `getVideoJobStatus` from `api/video.ts` (the `action=status` handler).
`now` is `Date.now()`; `piapi` the outcome of the PiAPI status call, consulted
only on the `piapi` branch.  Returns the response and the updated store (the
handler mutates the stored object's `status`/`error` in place). -/
def getVideoJobStatus (store : ServerStore) (jobId : String) (now : Nat)
    (piapi : PiapiCheck) : ApiResponse × ServerStore :=
  match store jobId with
  | none => ({ code := 404, error := some "Job not found" }, store)
  | some job =>
    if job.provider = "fal" then
      -- simulated completion after a fixed 30 s, regardless of any provider
      if 30000 ≤ now - job.createdAt then
        ({ code := 200, status := some "completed", jobId := some job.id,
           videoUrl := some "https://sample-videos.com/zip/10/mp4/SampleVideo_1280x720_1mb.mp4",
           thumbnail := some ("https://picsum.photos/320/180?random=" ++ jobId) },
          serverPut store jobId { job with status := "completed" })
      else
        ({ code := 200, status := some "processing", jobId := some job.id }, store)
    else if job.provider = "piapi" then
      match piapi with
      | .fetchErr msg =>
        ({ code := 500, error := some "Failed to check job status",
           message := some msg }, store)
      | .notOk =>
        ({ code := 200, status := some job.status, jobId := some job.id }, store)
      | .ok st vurl thumb errMsg =>
        if st = "completed" && jsTruthy vurl then
          ({ code := 200, status := some "completed", jobId := some job.id,
             videoUrl := vurl, thumbnail := thumb },
            serverPut store jobId { job with status := "completed" })
        else if st = "failed" then
          let e := jsOr errMsg "Video generation failed"
          ({ code := 200, status := some "failed", jobId := some job.id,
             error := some e },
            serverPut store jobId { job with status := "failed", error := some e })
        else
          ({ code := 200, status := some (if st = "" then "processing" else st),
             jobId := some job.id }, store)
    else
      ({ code := 200, status := some job.status, jobId := some job.id }, store)

/-- Function `completeVideoJob` from `api/video.ts` (the `action=complete` handler):
404 for a missing id, 400 while not `completed`, otherwise a success response
built from the stored record followed by `jobStore.delete`. -/
def completeVideoJob (store : ServerStore) (jobId : String) :
    ApiResponse × ServerStore :=
  if jobId = "" then ({ code := 400, error := some "Job ID is required" }, store)
  else
    match store jobId with
    | none => ({ code := 404, error := some "Job not found" }, store)
    | some job =>
      if job.status ≠ "completed" then
        ({ code := 400, error := some "Job not completed",
           message := some ("Job status is " ++ job.status ++ ", not completed") },
          store)
      else
        ({ code := 200, success := some true, videoUrl := job.videoUrl,
           thumbnail := job.thumbnail, jobId := some job.id,
           prompt := some job.prompt, aspectRatio := some job.aspectRatio,
           duration := some job.duration, tier := some job.tier,
           provider := some job.provider },
          serverErase store jobId)

end VideoApi

namespace AsyncVideoService

/-- An environment with a real (non-demo) FAL credential. -/
def envReal : ApiEnv := { falKey := some "realkey" }

/-- A provider-routed job as `createVideoJob` stores it on the real-key
path. -/
def falJob : ClientJob :=
  { id := "j", prompt := "cat", aspectRatio := "9:16", duration := 10,
    provider := "fal", status := "queued", createdAt := 0,
    isImageSequence := false, falJobId := "f1" }

/-- A store holding only `falJob`. -/
def falStore : ClientStore := storePut emptyStore "video_job_j" falJob

/-- A synthetic (image-sequence) job as `createVideoJob` stores it on the
free-tier path. -/
def synJob : ClientJob :=
  { id := "s", prompt := "sunset", aspectRatio := "9:16", duration := 10,
    provider := "image", status := "queued", createdAt := 0,
    isImageSequence := true }

/-- A store holding only `synJob`. -/
def synStore : ClientStore := storePut emptyStore "video_job_s" synJob

end AsyncVideoService

namespace VideoApi

/-- A server-side job whose status has reached `completed` (as the status
handler leaves it after the simulated 30 s). -/
def srvDoneJob : ServerJob :=
  { id := "k", prompt := "cat", aspectRatio := "16:9", duration := 10,
    tier := "pro", provider := "fal", status := "completed", createdAt := 0,
    externalJobId := some "e1" }

/-- A server store holding only `srvDoneJob`. -/
def srvDoneStore : ServerStore := serverPut emptyServerStore "k" srvDoneJob

/-- A server-side job still `processing`. -/
def srvProcJob : ServerJob :=
  { id := "k", prompt := "cat", aspectRatio := "16:9", duration := 10,
    tier := "pro", provider := "fal", status := "processing", createdAt := 0,
    externalJobId := some "e1" }

/-- A server store holding only `srvProcJob`. -/
def srvProcStore : ServerStore := serverPut emptyServerStore "k" srvProcJob

end VideoApi

open AsyncVideoService

/-- The snapshot and sleep time `getVideoJobStatus` produces for a job on the
synthetic image-sequence path, as a function of the elapsed time and the
reachability probes alone. -/
theorem getVideoJobStatus_synthetic (env : ApiEnv) (store : ClientStore)
    (jobId : String) (now : Nat) (reach : Nat → Bool) (chk : FalCheck)
    (job : ClientJob) (hget : store ("video_job_" ++ jobId) = some job)
    (hsyn : syntheticRouted job = true) :
    getVideoJobStatus env store jobId now reach chk =
      if now - job.createdAt < 5000 then ({ status := "processing" }, 0)
      else
        match headProbeHit reach with
        | some i =>
          ({ status := "completed", videoUrl := some (imageVideoUrl job),
             thumbnail := some (jsReplaceOnce (imageVideoUrl job) ".mp4" ".jpg"),
             isImageSequence := some true }, 5000 * i)
        | none =>
          ({ status := "completed", videoUrl := some (imageFallbackUrl job),
             thumbnail := some (imageFallbackUrl job),
             isImageSequence := some true,
             error := some "Video generation timed out, using image instead" },
            5000 * 40) := by
  unfold getVideoJobStatus
  rw [hget]
  simp [hsyn]

/-- The Pollinations video locator is never the empty string. -/
theorem imageVideoUrl_ne_empty (job : ClientJob) : imageVideoUrl job ≠ "" := by
  intro h
  have h2 := congrArg String.data h
  simp [imageVideoUrl, String.data_append] at h2

/-- The Pollinations image fallback locator is never the empty string. -/
theorem imageFallbackUrl_ne_empty (job : ClientJob) : imageFallbackUrl job ≠ "" := by
  intro h
  have h2 := congrArg String.data h
  simp [imageFallbackUrl, String.data_append] at h2

/-- Claim C1 (code bug exhibit): for a provider-routed job with a real
credential whose FAL status check genuinely fails (the fetch throws or
answers non-ok), `getVideoJobStatus` at 30 s elapsed does not propagate the
failure but fabricates a `completed` snapshot carrying the synthetic
placeholder locator — a fabricated success for a job whose fallback decision
was not made at creation time. -/
theorem c1_provider_failure_fabricated_success :
    pollSnap envReal falStore "j" 30000 (fun _ => false) .err =
      { status := "completed",
        videoUrl := some "https://sample-videos.com/zip/10/mp4/SampleVideo_1280x720_1mb.mp4",
        thumbnail := some "https://picsum.photos/320/180?random=j" } := by
  decide

/-- Claim C2 (counterexample): a provider-routed job whose provider reports
`completed` at 10 s is observed `completed`, but a poll at 20 s whose status
check errors falls into the elapsed-time simulation and is observed
`processing` — a regression out of a terminal state, contradicting the claim
that no later poll returns a status earlier in the order. -/
theorem c2_regression_counterexample :
    (pollSnap envReal falStore "j" 10000 (fun _ => false)
        (.ok "completed" (some "https://fal.example/v.mp4") none none)).status =
      "completed" ∧
    (pollSnap envReal falStore "j" 20000 (fun _ => false) .err).status =
      "processing" := by
  decide

/-- Claim C2 (amended): for synthetic-routed jobs the observed status does
move only forward — every snapshot is `processing` or `completed`, and once a
poll has returned `completed` every later poll (any reachability outcomes,
any status-check outcomes) returns `completed` again.  (Provider-routed jobs
recompute status from the provider's current answer or the elapsed-time
simulation on every poll, so they can regress, per the counterexample.) -/
theorem c2_synthetic_status_monotone (env : ApiEnv) (store : ClientStore)
    (jobId : String) (job : ClientJob) (now1 now2 : Nat)
    (reach1 reach2 : Nat → Bool) (chk1 chk2 : FalCheck)
    (hget : store ("video_job_" ++ jobId) = some job)
    (hsyn : syntheticRouted job = true) (hle : now1 ≤ now2)
    (hc : (pollSnap env store jobId now1 reach1 chk1).status = "completed") :
    ((pollSnap env store jobId now2 reach2 chk2).status = "processing" ∨
      (pollSnap env store jobId now2 reach2 chk2).status = "completed") ∧
    (pollSnap env store jobId now2 reach2 chk2).status = "completed" := by
  have h1 := getVideoJobStatus_synthetic env store jobId now1 reach1 chk1 job hget hsyn
  have h2 := getVideoJobStatus_synthetic env store jobId now2 reach2 chk2 job hget hsyn
  unfold pollSnap at hc ⊢
  rw [h1] at hc
  rw [h2]
  by_cases hlt : now1 - job.createdAt < 5000
  · rw [if_pos hlt] at hc
    simp at hc
  · have hlt2 : ¬ (now2 - job.createdAt < 5000) := by
      intro h
      exact hlt (lt_of_le_of_lt (Nat.sub_le_sub_right hle _) h)
    rw [if_neg hlt2]
    cases hhit : headProbeHit reach2 <;> simp

/-- Witness for the amended C2 at a concrete synthetic job: a poll of
`synJob` at 6 s is `completed` and one at 7 s is `completed` again. -/
theorem c2_synthetic_status_monotone_witness :
    ((pollSnap envReal synStore "s" 7000 (fun _ => true) .err).status = "processing" ∨
      (pollSnap envReal synStore "s" 7000 (fun _ => true) .err).status = "completed") ∧
    (pollSnap envReal synStore "s" 7000 (fun _ => true) .err).status = "completed" :=
  c2_synthetic_status_monotone envReal synStore "s" synJob 6000 7000
    (fun _ => true) (fun _ => true) .err .err (by decide) (by decide)
    (by decide) (by decide)

/-- Claim C3 (counterexample): two polls of the same synthetic job, both past
the threshold, both return `completed`, but their result locators differ when
the reachability probes fail on one poll and succeed on the other (image
fallback URL versus video URL) — so repeated polls after the threshold are
not always the same result. -/
theorem c3_reachability_counterexample :
    (pollSnap envReal synStore "s" 6000 (fun _ => false) .err).status = "completed" ∧
    (pollSnap envReal synStore "s" 7000 (fun _ => true) .err).status = "completed" ∧
    (pollSnap envReal synStore "s" 6000 (fun _ => false) .err).videoUrl ≠
      (pollSnap envReal synStore "s" 7000 (fun _ => true) .err).videoUrl := by
  decide

/-- Claim C3 (amended): for every synthetic-routed job, a poll below the 5 s
threshold returns `processing`; a poll at or after the threshold returns
`completed` with a non-empty locator derived from the job's prompt and the
dimensions mapped from its aspect ratio (the video URL when some reachability
probe succeeds, else the image fallback URL); and repeated polls past the
threshold return the same snapshot whenever the reachability outcome is
unchanged. -/
theorem c3_synthetic_poll_contract (env : ApiEnv) (store : ClientStore)
    (jobId : String) (job : ClientJob) (reach : Nat → Bool) (chk : FalCheck)
    (hget : store ("video_job_" ++ jobId) = some job)
    (hsyn : syntheticRouted job = true) :
    (∀ now, now - job.createdAt < 5000 →
      pollSnap env store jobId now reach chk = { status := "processing" }) ∧
    (∀ now, 5000 ≤ now - job.createdAt →
      (pollSnap env store jobId now reach chk).status = "completed" ∧
      (pollSnap env store jobId now reach chk).videoUrl =
        some (if (headProbeHit reach).isSome then imageVideoUrl job
              else imageFallbackUrl job) ∧
      imageVideoUrl job ≠ "" ∧ imageFallbackUrl job ≠ "") ∧
    (∀ now1 now2, 5000 ≤ now1 - job.createdAt → 5000 ≤ now2 - job.createdAt →
      pollSnap env store jobId now1 reach chk =
        pollSnap env store jobId now2 reach chk) := by
  refine ⟨fun now hlt => ?_, fun now hge => ?_, fun now1 now2 h1 h2 => ?_⟩
  · unfold pollSnap
    rw [getVideoJobStatus_synthetic env store jobId now reach chk job hget hsyn,
      if_pos hlt]
  · unfold pollSnap
    rw [getVideoJobStatus_synthetic env store jobId now reach chk job hget hsyn,
      if_neg (Nat.not_lt.mpr hge)]
    refine ⟨?_, ?_, imageVideoUrl_ne_empty job, imageFallbackUrl_ne_empty job⟩ <;>
      cases hhit : headProbeHit reach <;> simp [hhit]
  · unfold pollSnap
    rw [getVideoJobStatus_synthetic env store jobId now1 reach chk job hget hsyn,
      getVideoJobStatus_synthetic env store jobId now2 reach chk job hget hsyn,
      if_neg (Nat.not_lt.mpr h1), if_neg (Nat.not_lt.mpr h2)]

/-- Witness for the amended C3 at the concrete synthetic job `synJob`: a poll
at 1 s elapsed is `processing`. -/
theorem c3_synthetic_poll_contract_witness :
    pollSnap envReal synStore "s" 1000 (fun _ => true) .err =
      { status := "processing" } :=
  (c3_synthetic_poll_contract envReal synStore "s" synJob (fun _ => true) .err
    (by decide) (by decide)).1 1000 (by decide)

/-- Claim C4 (counterexample): a record more than an hour old is still served
normally — polling `synJob` (created at time 0) at t = 4,000,000 ms returns a
`completed` snapshot, not a not-found failure, because neither implementation
has any retention-window check. -/
theorem c4_expired_job_counterexample :
    3600000 < 4000000 - synJob.createdAt ∧
    (pollSnap envReal synStore "s" 4000000 (fun _ => true) .err).status = "completed" ∧
    (pollSnap envReal synStore "s" 4000000 (fun _ => true) .err).error = none := by
  decide

/-- Claim C4 (amended): a not-found outcome occurs exactly for ids absent
from the store, with no expiry: the server handlers answer 404 `Job not
found` for both status and finalize, while the client service reports the
absence as a `failed` snapshot with error `Job not found` (and its finalize
then fails with the generic not-completed message). -/
theorem c4_unknown_id_not_found (env : ApiEnv) (store : ClientStore)
    (sstore : VideoApi.ServerStore) (jobId : String) (tier : UserTier)
    (now : Nat) (reach : Nat → Bool) (chk : FalCheck)
    (piapi : VideoApi.PiapiCheck)
    (hc : store ("video_job_" ++ jobId) = none)
    (hs : sstore jobId = none) (hne : jobId ≠ "") :
    pollSnap env store jobId now reach chk =
      { status := "failed", error := some "Job not found" } ∧
    (completeVideoGeneration env store jobId tier now reach chk).1 =
      { success := false, error := some "Job not completed. Status: failed" } ∧
    (VideoApi.getVideoJobStatus sstore jobId now piapi).1 =
      { code := 404, error := some "Job not found" } ∧
    (VideoApi.completeVideoJob sstore jobId).1 =
      { code := 404, error := some "Job not found" } := by
  have hp : pollSnap env store jobId now reach chk =
      { status := "failed", error := some "Job not found" } := by
    unfold pollSnap getVideoJobStatus
    rw [hc]
  refine ⟨hp, ?_, ?_, ?_⟩
  · unfold completeVideoGeneration
    rw [hp]
    simp
  · unfold VideoApi.getVideoJobStatus
    rw [hs]
  · unfold VideoApi.completeVideoJob
    rw [if_neg hne, hs]

/-- Witness for the amended C4 at a concrete unknown id on empty stores. -/
theorem c4_unknown_id_not_found_witness :
    pollSnap envReal emptyStore "zzz" 0 (fun _ => true) .err =
      { status := "failed", error := some "Job not found" } ∧
    (completeVideoGeneration envReal emptyStore "zzz" .free 0 (fun _ => true) .err).1 =
      { success := false, error := some "Job not completed. Status: failed" } ∧
    (VideoApi.getVideoJobStatus VideoApi.emptyServerStore "zzz" 0 .notOk).1 =
      { code := 404, error := some "Job not found" } ∧
    (VideoApi.completeVideoJob VideoApi.emptyServerStore "zzz").1 =
      { code := 404, error := some "Job not found" } :=
  c4_unknown_id_not_found envReal emptyStore VideoApi.emptyServerStore "zzz"
    .free 0 (fun _ => true) .err .notOk rfl rfl (by decide)

/-- Behaviour of `completeVideoGeneration` on a job whose poll snapshot is `completed`:
it succeeds with the snapshot's locators and erases the record. -/
theorem completeVideoGeneration_done (env : ApiEnv) (store : ClientStore)
    (jobId : String) (tier : UserTier) (now : Nat) (reach : Nat → Bool)
    (chk : FalCheck)
    (hc : (pollSnap env store jobId now reach chk).status = "completed") :
    completeVideoGeneration env store jobId tier now reach chk =
      ({ success := true,
         videoUrl := (pollSnap env store jobId now reach chk).videoUrl,
         thumbnail := (pollSnap env store jobId now reach chk).thumbnail,
         tier := some tier, hasAdCard := some (tier == .free),
         jobId := some jobId },
        storeErase store ("video_job_" ++ jobId)) := by
  unfold completeVideoGeneration
  simp [hc]

/-- Behaviour of `completeVideoGeneration` on a job whose poll snapshot is not
`completed`: it fails with the not-completed message and leaves the store
unchanged. -/
theorem completeVideoGeneration_notdone (env : ApiEnv) (store : ClientStore)
    (jobId : String) (tier : UserTier) (now : Nat) (reach : Nat → Bool)
    (chk : FalCheck)
    (hc : (pollSnap env store jobId now reach chk).status ≠ "completed") :
    completeVideoGeneration env store jobId tier now reach chk =
      ({ success := false,
         error := some ("Job not completed. Status: " ++
           (pollSnap env store jobId now reach chk).status) }, store) := by
  unfold completeVideoGeneration
  simp [hc]

/-- Erasing a key removes it from a client store. -/
theorem storeErase_self (store : ClientStore) (k : String) :
    storeErase store k k = none := by
  simp [storeErase]

/-- Erasing a key removes it from a server store. -/
theorem serverErase_self (store : VideoApi.ServerStore) (k : String) :
    VideoApi.serverErase store k k = none := by
  simp [VideoApi.serverErase]

/-- Claim C5 (counterexample): in the client service, the second `finalize`
on the same id does not fail with a `Job not found` error as the claim
states: the missing record surfaces as a `failed` status snapshot, so the
second call answers the generic message `Job not completed. Status: failed`
instead. -/
theorem c5_second_finalize_counterexample :
    (completeVideoGeneration envReal synStore "s" .free 6000 (fun _ => true) .err).1.success = true ∧
    (completeVideoGeneration envReal
        (completeVideoGeneration envReal synStore "s" .free 6000 (fun _ => true) .err).2
        "s" .free 7000 (fun _ => true) .err).1 =
      { success := false, error := some "Job not completed. Status: failed" } ∧
    (completeVideoGeneration envReal
        (completeVideoGeneration envReal synStore "s" .free 6000 (fun _ => true) .err).2
        "s" .free 7000 (fun _ => true) .err).1.error ≠ some "Job not found" := by
  decide

/-- Claim C5 (amended): finalize is one-shot in both implementations, but
the second call's error differs between them.  On the server, the first
`completeVideoJob` of a `completed` job answers 200 with the stored record's
locator and deletes the record, and the second call answers 404 `Job not
found`.  In the client service, the first `completeVideoGeneration` of a job
polling `completed` succeeds and erases the record, and the second call
fails — with the generic `Job not completed. Status: failed` message rather
than a JobNotFound error. -/
theorem c5_finalize_one_shot
    (sstore : VideoApi.ServerStore) (sid : String) (sjob : VideoApi.ServerJob)
    (env : ApiEnv) (store : ClientStore) (jobId : String) (tier : UserTier)
    (now now2 : Nat) (reach reach2 : Nat → Bool) (chk chk2 : FalCheck)
    (hs : sstore sid = some sjob) (hdone : sjob.status = "completed")
    (hne : sid ≠ "")
    (hc : (pollSnap env store jobId now reach chk).status = "completed") :
    ((VideoApi.completeVideoJob sstore sid).1.code = 200 ∧
     (VideoApi.completeVideoJob sstore sid).1.success = some true ∧
     (VideoApi.completeVideoJob sstore sid).1.videoUrl = sjob.videoUrl ∧
     (VideoApi.completeVideoJob sstore sid).2 sid = none ∧
     (VideoApi.completeVideoJob (VideoApi.completeVideoJob sstore sid).2 sid).1 =
       { code := 404, error := some "Job not found" }) ∧
    ((completeVideoGeneration env store jobId tier now reach chk).1.success = true ∧
     (completeVideoGeneration env store jobId tier now reach chk).1.videoUrl =
       (pollSnap env store jobId now reach chk).videoUrl ∧
     (completeVideoGeneration env store jobId tier now reach chk).2
       ("video_job_" ++ jobId) = none ∧
     (completeVideoGeneration env
        (completeVideoGeneration env store jobId tier now reach chk).2
        jobId tier now2 reach2 chk2).1 =
       { success := false, error := some "Job not completed. Status: failed" }) := by
  have h1 : VideoApi.completeVideoJob sstore sid =
      ({ code := 200, success := some true, videoUrl := sjob.videoUrl,
         thumbnail := sjob.thumbnail, jobId := some sjob.id,
         prompt := some sjob.prompt, aspectRatio := some sjob.aspectRatio,
         duration := some sjob.duration, tier := some sjob.tier,
         provider := some sjob.provider },
        VideoApi.serverErase sstore sid) := by
    unfold VideoApi.completeVideoJob
    rw [if_neg hne, hs]
    simp [hdone]
  have h2 : (VideoApi.completeVideoJob (VideoApi.serverErase sstore sid) sid).1 =
      { code := 404, error := some "Job not found" } := by
    unfold VideoApi.completeVideoJob
    rw [if_neg hne, serverErase_self]
  have h3 := completeVideoGeneration_done env store jobId tier now reach chk hc
  have h4 : (completeVideoGeneration env store jobId tier now reach chk).2
      ("video_job_" ++ jobId) = none := by
    rw [h3]
    exact storeErase_self store ("video_job_" ++ jobId)
  have h5 : pollSnap env
      (completeVideoGeneration env store jobId tier now reach chk).2
      jobId now2 reach2 chk2 =
      { status := "failed", error := some "Job not found" } := by
    unfold pollSnap getVideoJobStatus
    rw [h4]
  refine ⟨⟨?_, ?_, ?_, ?_, ?_⟩, ?_, ?_, h4, ?_⟩
  · rw [h1]
  · rw [h1]
  · rw [h1]
  · rw [h1]; exact serverErase_self sstore sid
  · rw [h1]; exact h2
  · rw [h3]
  · rw [h3]
  · rw [completeVideoGeneration_notdone env _ jobId tier now2 reach2 chk2
      (by rw [h5]; decide), h5]
    simp

/-- Witness for the amended C5 at concrete inputs: the second server
finalize of `srvDoneJob` answers 404, and the first client finalize of
`synJob` succeeds. -/
theorem c5_finalize_one_shot_witness :
    (VideoApi.completeVideoJob
        (VideoApi.completeVideoJob VideoApi.srvDoneStore "k").2 "k").1 =
      { code := 404, error := some "Job not found" } ∧
    (completeVideoGeneration envReal synStore "s" .free 6000 (fun _ => true) .err).1.success = true :=
  ⟨(c5_finalize_one_shot VideoApi.srvDoneStore "k" VideoApi.srvDoneJob
      envReal synStore "s" .free 6000 7000 (fun _ => true) (fun _ => true)
      .err .err rfl rfl (by decide) (by decide)).1.2.2.2.2,
   (c5_finalize_one_shot VideoApi.srvDoneStore "k" VideoApi.srvDoneJob
      envReal synStore "s" .free 6000 7000 (fun _ => true) (fun _ => true)
      .err .err rfl rfl (by decide) (by decide)).2.1⟩

/-- Claim C6 (confirmed): finalizing a job whose status is `queued` or
`processing` fails with the not-ready error and leaves the store unchanged:
the client service answers `success = false` with the `Job not completed`
message and returns the store untouched, and the server handler answers 400
`Job not completed` without modifying the job record. -/
theorem c6_finalize_not_ready (env : ApiEnv) (store : ClientStore)
    (jobId : String) (tier : UserTier) (now : Nat) (reach : Nat → Bool)
    (chk : FalCheck)
    (h : (pollSnap env store jobId now reach chk).status = "queued" ∨
         (pollSnap env store jobId now reach chk).status = "processing") :
    (completeVideoGeneration env store jobId tier now reach chk).1.success = false ∧
    (completeVideoGeneration env store jobId tier now reach chk).1.error =
      some ("Job not completed. Status: " ++
        (pollSnap env store jobId now reach chk).status) ∧
    (completeVideoGeneration env store jobId tier now reach chk).2 = store ∧
    (∀ (sstore : VideoApi.ServerStore) (sid : String) (sjob : VideoApi.ServerJob),
      sstore sid = some sjob → sid ≠ "" →
      (sjob.status = "queued" ∨ sjob.status = "processing") →
      VideoApi.completeVideoJob sstore sid =
        ({ code := 400, error := some "Job not completed",
           message := some ("Job status is " ++ sjob.status ++ ", not completed") },
          sstore)) := by
  have hne : (pollSnap env store jobId now reach chk).status ≠ "completed" := by
    rcases h with h | h <;> rw [h] <;> decide
  have hcl := completeVideoGeneration_notdone env store jobId tier now reach chk hne
  refine ⟨by rw [hcl], by rw [hcl], by rw [hcl], ?_⟩
  intro sstore sid sjob hs hsne hq
  have hnc : sjob.status ≠ "completed" := by
    rcases hq with h | h <;> rw [h] <;> decide
  unfold VideoApi.completeVideoJob
  rw [if_neg hsne, hs]
  simp [hnc]

/-- Witness for C6: finalizing the synthetic job `synJob` at 1 s elapsed
(status `processing`) fails and leaves `synStore` unchanged. -/
theorem c6_finalize_not_ready_witness :
    (completeVideoGeneration envReal synStore "s" .free 1000 (fun _ => true) .err).1.success = false ∧
    (completeVideoGeneration envReal synStore "s" .free 1000 (fun _ => true) .err).2 = synStore :=
  ⟨(c6_finalize_not_ready envReal synStore "s" .free 1000 (fun _ => true) .err
      (Or.inr (by decide))).1,
   (c6_finalize_not_ready envReal synStore "s" .free 1000 (fun _ => true) .err
      (Or.inr (by decide))).2.2.1⟩

/-- Looking up the key just written. -/
theorem storePut_self (store : ClientStore) (k : String) (v : ClientJob) :
    storePut store k v k = some v := by
  simp [storePut]

/-- The synthetic branch of `createVideoJob`: for the free tier, or whenever
the FAL credential is missing or a demo placeholder, the service stores an
image-sequence job and reports it queued. -/
theorem createVideoJob_synthetic_branch (env : ApiEnv) (config : VideoConfig)
    (tier : UserTier) (now : Nat) (rand : String) (submit : FalSubmit)
    (store : ClientStore)
    (h : tier = .free ∨ demoOrMissing (getApiKey env "fal") = true) :
    createVideoJob env config tier now rand submit store =
      ({ jobId := "img_" ++ toString now ++ "_" ++ rand, status := "queued",
         isImageSequence := some true },
        storePut store ("video_job_" ++ ("img_" ++ toString now ++ "_" ++ rand))
          { id := "img_" ++ toString now ++ "_" ++ rand, prompt := config.prompt,
            aspectRatio := config.aspectRatio,
            duration := min config.duration 16, provider := "image",
            status := "queued", createdAt := now, isImageSequence := true }) := by
  unfold createVideoJob
  rcases h with h | h
  · rw [if_pos h]
  · by_cases hf : tier = .free
    · rw [if_pos hf]
    · rw [if_neg hf]
      simp [h]

/-- The provider branch of `createVideoJob`: with a real credential and a
successful FAL registration, the service stores a `fal` job and reports it
queued. -/
theorem createVideoJob_provider_branch (env : ApiEnv) (config : VideoConfig)
    (tier : UserTier) (now : Nat) (rand : String)
    (rid jid : Option String) (store : ClientStore)
    (hf : tier ≠ .free) (hk : demoOrMissing (getApiKey env "fal") = false) :
    createVideoJob env config tier now rand (.ok rid jid) store =
      ({ jobId := "job_" ++ toString now ++ "_" ++ rand, status := "queued" },
        storePut store ("video_job_" ++ ("job_" ++ toString now ++ "_" ++ rand))
          { id := "job_" ++ toString now ++ "_" ++ rand, prompt := config.prompt,
            aspectRatio := config.aspectRatio,
            duration := min config.duration (if tier = .pro then 30 else 15),
            provider := "fal", status := "queued", createdAt := now,
            isImageSequence := false,
            falJobId := jsOr rid (jsOr jid ("job_" ++ toString now ++ "_" ++ rand)) }) := by
  unfold createVideoJob
  rw [if_neg hf]
  simp [hk]

/-- The failing provider branch of `createVideoJob`: with a real credential
and a throwing FAL registration, the service returns the caught-error value
and stores nothing. -/
theorem createVideoJob_err_branch (env : ApiEnv) (config : VideoConfig)
    (tier : UserTier) (now : Nat) (rand : String) (msg : String)
    (store : ClientStore)
    (hf : tier ≠ .free) (hk : demoOrMissing (getApiKey env "fal") = false) :
    createVideoJob env config tier now rand (.err msg) store =
      ({ jobId := "", status := "failed",
         error := some (if msg = "" then "Failed to create video job" else msg) },
        store) := by
  unfold createVideoJob
  rw [if_neg hf]
  simp [hk]

/-- Claim C7 (confirmed): `createVideoJob` routes synthetically — storing an
image-sequence job and still succeeding with a queued result — exactly when
the tier is free or the FAL credential is missing/a demo placeholder;
otherwise, when FAL registration succeeds, it stores a provider (`fal`)
job and reports it queued. -/
theorem c7_routing_policy (env : ApiEnv) (config : VideoConfig)
    (tier : UserTier) (now : Nat) (rand : String) (submit : FalSubmit)
    (store : ClientStore) :
    ((tier = .free ∨ demoOrMissing (getApiKey env "fal") = true) →
      (createVideoJob env config tier now rand submit store).1.status = "queued" ∧
      ∃ job, (createVideoJob env config tier now rand submit store).2
          ("video_job_" ++ (createVideoJob env config tier now rand submit store).1.jobId) = some job ∧
        job.provider = "image" ∧ syntheticRouted job = true) ∧
    (∀ rid jid, tier ≠ .free → demoOrMissing (getApiKey env "fal") = false →
      (createVideoJob env config tier now rand (.ok rid jid) store).1.status = "queued" ∧
      ∃ job, (createVideoJob env config tier now rand (.ok rid jid) store).2
          ("video_job_" ++ (createVideoJob env config tier now rand (.ok rid jid) store).1.jobId) = some job ∧
        job.provider = "fal" ∧ syntheticRouted job = false) := by
  constructor
  · intro h
    rw [createVideoJob_synthetic_branch env config tier now rand submit store h]
    exact ⟨rfl, _, storePut_self _ _ _, rfl, rfl⟩
  · intro rid jid hf hk
    rw [createVideoJob_provider_branch env config tier now rand rid jid store hf hk]
    exact ⟨rfl, _, storePut_self _ _ _, rfl, rfl⟩

/-- Witness for C7: a free-tier creation stores an image job; a pro-tier
creation with a real key and successful registration stores a fal job. -/
theorem c7_routing_policy_witness :
    ((createVideoJob envReal { prompt := "p", aspectRatio := "9:16", duration := 12 }
        .free 5 "r" (.ok none none) emptyStore).1.status = "queued" ∧
      ∃ job, (createVideoJob envReal { prompt := "p", aspectRatio := "9:16", duration := 12 }
          .free 5 "r" (.ok none none) emptyStore).2
          ("video_job_" ++ (createVideoJob envReal { prompt := "p", aspectRatio := "9:16", duration := 12 }
              .free 5 "r" (.ok none none) emptyStore).1.jobId) = some job ∧
        job.provider = "image" ∧ syntheticRouted job = true) ∧
    ((createVideoJob envReal { prompt := "p", aspectRatio := "9:16", duration := 12 }
        .pro 5 "r" (.ok none none) emptyStore).1.status = "queued" ∧
      ∃ job, (createVideoJob envReal { prompt := "p", aspectRatio := "9:16", duration := 12 }
          .pro 5 "r" (.ok none none) emptyStore).2
          ("video_job_" ++ (createVideoJob envReal { prompt := "p", aspectRatio := "9:16", duration := 12 }
              .pro 5 "r" (.ok none none) emptyStore).1.jobId) = some job ∧
        job.provider = "fal" ∧ syntheticRouted job = false) :=
  ⟨(c7_routing_policy envReal { prompt := "p", aspectRatio := "9:16", duration := 12 }
      .free 5 "r" (.ok none none) emptyStore).1 (Or.inl rfl),
   (c7_routing_policy envReal { prompt := "p", aspectRatio := "9:16", duration := 12 }
      .pro 5 "r" (.ok none none) emptyStore).2 none none (by decide) (by decide)⟩

/-- Claim C8 (counterexample): a free-tier request with duration 12 stores
duration 12 — the free-path clamp is `Math.min(duration, 16)`, not the
free-tier maximum 10 of the `PRICING` configuration, so the stored value is
not `min 12 (PRICING_maxLength free) = 10`. -/
theorem c8_free_tier_clamp_counterexample :
    ((createVideoJob envReal { prompt := "p", aspectRatio := "9:16", duration := 12 }
        .free 5 "r" (.ok none none) emptyStore).2 "video_job_img_5_r").map
      ClientJob.duration = some 12 ∧
    ¬ (12 = min 12 (PRICING_maxLength .free)) := by
  decide

/-- Claim C8 (amended): the stored (and provider-submitted) duration is
`min requested 15` for basic and `min requested 30` for pro on the provider
path — matching `PRICING` — but on every synthetic path (free tier, or a
missing/demo credential at any tier) it is `min requested 16`, the
Pollinations ceiling, not the tier maximum from `PRICING`. -/
theorem c8_duration_clamp (env : ApiEnv) (config : VideoConfig)
    (tier : UserTier) (now : Nat) (rand : String) (store : ClientStore) :
    (∀ submit, (tier = .free ∨ demoOrMissing (getApiKey env "fal") = true) →
      ∃ job, (createVideoJob env config tier now rand submit store).2
          ("video_job_" ++ (createVideoJob env config tier now rand submit store).1.jobId) = some job ∧
        job.duration = min config.duration 16) ∧
    (∀ rid jid, tier ≠ .free → demoOrMissing (getApiKey env "fal") = false →
      ∃ job, (createVideoJob env config tier now rand (.ok rid jid) store).2
          ("video_job_" ++ (createVideoJob env config tier now rand (.ok rid jid) store).1.jobId) = some job ∧
        job.duration = min config.duration (PRICING_maxLength tier)) := by
  constructor
  · intro submit h
    rw [createVideoJob_synthetic_branch env config tier now rand submit store h]
    exact ⟨_, storePut_self _ _ _, rfl⟩
  · intro rid jid hf hk
    rw [createVideoJob_provider_branch env config tier now rand rid jid store hf hk]
    refine ⟨_, storePut_self _ _ _, ?_⟩
    cases tier with
    | free => exact absurd rfl hf
    | basic => rfl
    | pro => rfl

/-- Witness for the amended C8: a basic-tier creation with a real key and
requested duration 99 stores `min 99 15 = 15`. -/
theorem c8_duration_clamp_witness :
    ∃ job, (createVideoJob envReal { prompt := "p", aspectRatio := "9:16", duration := 99 }
        .basic 5 "r" (.ok none none) emptyStore).2
        ("video_job_" ++ (createVideoJob envReal { prompt := "p", aspectRatio := "9:16", duration := 99 }
            .basic 5 "r" (.ok none none) emptyStore).1.jobId) = some job ∧
      job.duration = min 99 (PRICING_maxLength .basic) :=
  (c8_duration_clamp envReal { prompt := "p", aspectRatio := "9:16", duration := 99 }
      .basic 5 "r" emptyStore).2 none none (by decide) (by decide)

/-- Claim C9 (code bug exhibit): a single `getVideoJobStatus` call on a
synthetic job past its threshold, with the video URL never reachable, spends
200,000 ms (40 sleeps of 5 s) in internal `setTimeout` waits before
answering — a blocking wait-for-availability loop inside the poll
operation. -/
theorem c9_poll_blocks_in_probe_loop :
    pollSleepMs envReal synStore "s" 6000 (fun _ => false) .err = 200000 ∧
    (pollSnap envReal synStore "s" 6000 (fun _ => false) .err).status = "completed" := by
  decide

/-- Claim C10 (confirmed): the three lifecycle operations are total at the
error boundary — modelled over every input and every oracle outcome
(including throwing fetches), `createVideoJob` returns either a queued
result or the caught-error value (`status = failed`, empty job id, an error
message), `getVideoJobStatus` returns a snapshot that carries an error
message whenever its status is `failed`, and `completeVideoGeneration`
returns either a success or a failure value with an error message. -/
theorem c10_total_error_boundary (env : ApiEnv) (config : VideoConfig)
    (tier : UserTier) (now : Nat) (rand : String) (submit : FalSubmit)
    (store : ClientStore) (jobId : String) (reach : Nat → Bool)
    (chk : FalCheck) :
    ((createVideoJob env config tier now rand submit store).1.status = "queued" ∨
      ((createVideoJob env config tier now rand submit store).1.status = "failed" ∧
       (createVideoJob env config tier now rand submit store).1.jobId = "" ∧
       ((createVideoJob env config tier now rand submit store).1.error).isSome = true)) ∧
    ((pollSnap env store jobId now reach chk).status ≠ "failed" ∨
      ((pollSnap env store jobId now reach chk).error).isSome = true) ∧
    ((completeVideoGeneration env store jobId tier now reach chk).1.success = true ∨
      ((completeVideoGeneration env store jobId tier now reach chk).1.error).isSome = true) := by
  refine ⟨?_, ?_, ?_⟩
  · by_cases h : tier = .free ∨ demoOrMissing (getApiKey env "fal") = true
    · rw [createVideoJob_synthetic_branch env config tier now rand submit store h]
      exact Or.inl rfl
    · have hf : tier ≠ .free := fun hh => h (Or.inl hh)
      have hk : demoOrMissing (getApiKey env "fal") = false := by
        cases hdm : demoOrMissing (getApiKey env "fal") with
        | false => rfl
        | true => exact absurd (Or.inr hdm) h
      cases submit with
      | err msg =>
        rw [createVideoJob_err_branch env config tier now rand msg store hf hk]
        exact Or.inr ⟨rfl, rfl, rfl⟩
      | ok rid jid =>
        rw [createVideoJob_provider_branch env config tier now rand rid jid store hf hk]
        exact Or.inl rfl
  · cases hj : store ("video_job_" ++ jobId) with
    | none =>
      have hp : pollSnap env store jobId now reach chk =
          { status := "failed", error := some "Job not found" } := by
        unfold pollSnap getVideoJobStatus
        rw [hj]
      rw [hp]
      exact Or.inr rfl
    | some job =>
      by_cases hsyn : syntheticRouted job = true
      · have hs := getVideoJobStatus_synthetic env store jobId now reach chk job hj hsyn
        unfold pollSnap
        rw [hs]
        by_cases hlt : now - job.createdAt < 5000
        · rw [if_pos hlt]
          exact Or.inl (by decide)
        · rw [if_neg hlt]
          cases hhit : headProbeHit reach with
          | some i => exact Or.inl (by simp)
          | none => exact Or.inl (by simp)
      · have hb : syntheticRouted job = false := by
          cases hx : syntheticRouted job with
          | false => rfl
          | true => exact absurd hx hsyn
        by_cases hfal : job.provider = "fal"
        · cases hdm : demoOrMissing (getApiKey env "fal") with
          | true =>
            unfold pollSnap getVideoJobStatus
            rw [hj]
            by_cases hlt : now - job.createdAt < 30000 <;>
              simp [hb, hfal, hdm, hlt]
          | false =>
            cases chk with
            | err =>
              unfold pollSnap getVideoJobStatus
              rw [hj]
              by_cases hlt : now - job.createdAt < 30000 <;>
                simp [hb, hfal, hdm, hlt]
            | ok st vurl thumb errMsg =>
              by_cases h1 : (st = "completed" && jsTruthy vurl) = true
              · unfold pollSnap getVideoJobStatus
                rw [hj]
                simp [hb, hfal, hdm, h1]
              · by_cases h2 : st = "failed"
                · unfold pollSnap getVideoJobStatus
                  rw [hj]
                  simp [hb, hfal, hdm, h1, h2]
                · by_cases h3 : st = ""
                  · unfold pollSnap getVideoJobStatus
                    rw [hj]
                    simp [hb, hfal, hdm, h1, h2, h3]
                  · unfold pollSnap getVideoJobStatus
                    rw [hj]
                    simp [hb, hfal, hdm, h1, h2, h3]
        · have hp : pollSnap env store jobId now reach chk =
              { status := "failed", error := some "Unknown provider" } := by
            unfold pollSnap getVideoJobStatus
            rw [hj]
            simp [hb, hfal]
          rw [hp]
          exact Or.inr rfl
  · by_cases hdone : (pollSnap env store jobId now reach chk).status = "completed"
    · rw [completeVideoGeneration_done env store jobId tier now reach chk hdone]
      exact Or.inl rfl
    · rw [completeVideoGeneration_notdone env store jobId tier now reach chk hdone]
      exact Or.inr rfl
